import Mathlib

/-
Verification of the bagua entity change-tracking and transactional
side-effect scheduling core.

The development shallowly embeds the relevant Rust source:
- src/entity/foreign.rs : the relation-diff type ForeignEntities and its
  add / remove / reset / current_value operations;
- src/entity/field.rs : the tri-state attribute holder Field and its
  read and write operations, plus the MarkCopy specialization of the
  FiledValue trait;
- src/db/diesel/mod.rs : the transaction coordinator TxnManagerDiesel
  with do_transaction, register_callback, invoke_callbacks and the Drop
  implementation;
- src/db/transaction.rs : BasicTxCallback with push_task and call.

Modelling conventions: a generic ForeignContainer is modelled as a
Finset of item identities (the ForeignEntity trait bounds Item by
Borrow of Id, and the Borrow contract makes item equality coincide with
id equality; the blanket impl for SysId types even takes Item = Id, so
items are represented by their ids). Rust panics on unloaded reads are
modelled as an error value of type FieldError; async effects of the
coordinator are modelled by explicit state passing, with the results of
the begin / commit / rollback driver calls supplied as parameters.
-/

set_option autoImplicit false

namespace Bagua

/-! Relation diff: src/entity/foreign.rs -/

/-- State of the original membership inside a Changed diff
(enum ForeignEntitiesState in foreign.rs). -/
inductive ForeignEntitiesState (α : Type) where
  | Unloaded : ForeignEntitiesState α
  | Data (v : Finset α) : ForeignEntitiesState α
deriving DecidableEq

/-- The relation-diff holder (enum ForeignEntities in foreign.rs).
The container of items and the set of removed ids are both finite sets
of identities. -/
inductive ForeignEntities (α : Type) where
  | Unloaded : ForeignEntities α
  | Unchanged (v : Finset α) : ForeignEntities α
  | Reset (v : Finset α) : ForeignEntities α
  | Changed (original : ForeignEntitiesState α) (toAdd : Finset α)
      (toRemove : Finset α) : ForeignEntities α
deriving DecidableEq

namespace ForeignEntities

variable {α : Type} [DecidableEq α]

/-- ForeignEntities::add (foreign.rs lines 164-212). On Unloaded, start a
Changed diff with a singleton add; on Unchanged, no-op when the original
already contains the id, otherwise start a Changed diff over the original;
on Reset, insert into the replacement set; on Changed, a pending removal of
the same id is cancelled (and nothing is inserted), otherwise the item is
inserted into the add container. -/
def add (s : ForeignEntities α) (value : α) : ForeignEntities α :=
  match s with
  | .Unloaded => .Changed .Unloaded {value} ∅
  | .Unchanged origin =>
    if value ∈ origin then .Unchanged origin
    else .Changed (.Data origin) {value} ∅
  | .Reset r => .Reset (insert value r)
  | .Changed original toAdd toRemove =>
    if value ∈ toRemove then .Changed original toAdd (toRemove.erase value)
    else .Changed original (insert value toAdd) toRemove

/-- ForeignEntities::remove (foreign.rs lines 214-258). Symmetric to add:
on Changed, a pending addition of the same id is cancelled, otherwise the
id is inserted into the remove set. -/
def remove (s : ForeignEntities α) (value : α) : ForeignEntities α :=
  match s with
  | .Unloaded => .Changed .Unloaded ∅ {value}
  | .Unchanged origin =>
    if value ∈ origin then .Changed (.Data origin) ∅ {value}
    else .Unchanged origin
  | .Reset r => .Reset (r.erase value)
  | .Changed original toAdd toRemove =>
    if value ∈ toAdd then .Changed original (toAdd.erase value) toRemove
    else .Changed original toAdd (insert value toRemove)

/-- ForeignEntities::reset (foreign.rs lines 260-262): unconditionally
replaces the whole diff with Reset of the supplied container. -/
def reset (_s : ForeignEntities α) (value : Finset α) : ForeignEntities α :=
  .Reset value

/-- ForeignEntities::current_value (foreign.rs lines 125-156). The Rust
function panics when the field (or the original of a Changed diff) is not
loaded; this is modelled by returning none. On a materializable Changed
diff it clones the original, removes every id in the remove set, then
extends with the add container. -/
def current_value (s : ForeignEntities α) : Option (Finset α) :=
  match s with
  | .Unloaded => none
  | .Unchanged v => some v
  | .Reset v => some v
  | .Changed original toAdd toRemove =>
    match original with
    | .Unloaded => none
    | .Data v => some ((v \ toRemove) ∪ toAdd)

/-- A single diff operation, for reasoning about operation sequences. -/
inductive Op (α : Type) where
  | add (x : α) : Op α
  | remove (x : α) : Op α
  | reset (s : Finset α) : Op α

/-- Apply one diff operation. -/
def applyOp (s : ForeignEntities α) : Op α → ForeignEntities α
  | .add x => s.add x
  | .remove x => s.remove x
  | .reset v => s.reset v

/-- Apply a sequence of diff operations, left to right. -/
def applyOps (s : ForeignEntities α) (ops : List (Op α)) : ForeignEntities α :=
  ops.foldl applyOp s

/-- The pending-edit disjointness invariant: in a Changed diff, no identity
is simultaneously in the add container and the remove set. Non-Changed
states satisfy it trivially. -/
def disjoint_pending : ForeignEntities α → Prop
  | .Changed _ toAdd toRemove => toAdd ∩ toRemove = ∅
  | _ => True

theorem disjoint_pending_add {s : ForeignEntities α} (x : α)
    (h : s.disjoint_pending) : (s.add x).disjoint_pending := by
  cases s with
  | Unloaded => simp [add, disjoint_pending]
  | Unchanged origin =>
    by_cases hx : x ∈ origin <;> simp [add, hx, disjoint_pending]
  | Reset r => simp [add, disjoint_pending]
  | Changed original toAdd toRemove =>
    simp only [disjoint_pending] at h
    by_cases hx : x ∈ toRemove
    · simp only [add, hx, if_true, disjoint_pending]
      apply Finset.subset_empty.mp
      calc toAdd ∩ toRemove.erase x ⊆ toAdd ∩ toRemove :=
            Finset.inter_subset_inter (le_refl toAdd) (Finset.erase_subset x toRemove)
        _ = ∅ := h
    · simp only [add, hx, if_false, disjoint_pending]
      rw [Finset.insert_inter_of_not_mem hx]
      exact h

theorem disjoint_pending_remove {s : ForeignEntities α} (x : α)
    (h : s.disjoint_pending) : (s.remove x).disjoint_pending := by
  cases s with
  | Unloaded => simp [remove, disjoint_pending]
  | Unchanged origin =>
    by_cases hx : x ∈ origin <;> simp [remove, hx, disjoint_pending]
  | Reset r => simp [remove, disjoint_pending]
  | Changed original toAdd toRemove =>
    simp only [disjoint_pending] at h
    by_cases hx : x ∈ toAdd
    · simp only [remove, hx, if_true, disjoint_pending]
      apply Finset.subset_empty.mp
      calc toAdd.erase x ∩ toRemove ⊆ toAdd ∩ toRemove :=
            Finset.inter_subset_inter (Finset.erase_subset x toAdd) (le_refl toRemove)
        _ = ∅ := h
    · simp only [remove, hx, if_false, disjoint_pending]
      rw [Finset.inter_comm, Finset.insert_inter_of_not_mem hx, Finset.inter_comm]
      exact h

theorem disjoint_pending_applyOp {s : ForeignEntities α} (op : Op α)
    (h : s.disjoint_pending) : (s.applyOp op).disjoint_pending := by
  cases op with
  | add x => exact disjoint_pending_add x h
  | remove x => exact disjoint_pending_remove x h
  | reset v => simp [applyOp, reset, disjoint_pending]

end ForeignEntities

end Bagua

namespace Bagua

/-- Claim C5: for every sequence of add / remove / reset operations applied
to a ForeignEntities diff satisfying the pending-edit invariant (which every
freshly constructed Unloaded, Unchanged or Reset diff does trivially, and
every Changed diff produced by the operations does), whenever the resulting
state is Changed, no identity is simultaneously in the add container and
the remove set. -/
theorem foreignEntities_disjoint_pending_invariant {α : Type} [DecidableEq α]
    (s : ForeignEntities α) (ops : List (ForeignEntities.Op α))
    (h : s.disjoint_pending) : (s.applyOps ops).disjoint_pending := by
  induction ops generalizing s with
  | nil => exact h
  | cons op rest ih =>
    exact ih (s.applyOp op) (ForeignEntities.disjoint_pending_applyOp op h)

/-- Witness for C5: a concrete run from an Unchanged diff through add,
remove and reset operations keeps the invariant. -/
theorem foreignEntities_disjoint_pending_invariant_witness :
    (ForeignEntities.applyOps (ForeignEntities.Unchanged ({1, 2} : Finset ℕ))
      [ForeignEntities.Op.add 3, ForeignEntities.Op.remove 1,
       ForeignEntities.Op.remove 3]).disjoint_pending :=
  foreignEntities_disjoint_pending_invariant
    (ForeignEntities.Unchanged ({1, 2} : Finset ℕ))
    [ForeignEntities.Op.add 3, ForeignEntities.Op.remove 1,
     ForeignEntities.Op.remove 3] trivial

/-- Claim C6: starting from an Unloaded diff, add x then remove x yields a
Changed diff with unloaded original, empty add container and empty remove
set: the removal cancels the pending addition. -/
theorem foreignEntities_add_then_remove_cancels {α : Type} [DecidableEq α]
    (x : α) :
    (ForeignEntities.Unloaded.add x).remove x =
      ForeignEntities.Changed .Unloaded ∅ ∅ := by
  simp [ForeignEntities.add, ForeignEntities.remove]

/-- Claim C7: after reset with container s2, current_value returns s2,
independently of all diff history accumulated before the reset. -/
theorem foreignEntities_reset_current_value {α : Type} [DecidableEq α]
    (s : ForeignEntities α) (s2 : Finset α) :
    (s.reset s2).current_value = some s2 := rfl

/-- Claim C8: on an Unchanged diff, add is a no-op when the original already
contains the item id and otherwise produces a Changed diff with the item as
sole pending addition; remove is a no-op when the original does not contain
the id and otherwise produces a Changed diff with the id as sole pending
removal. -/
theorem foreignEntities_unchanged_add_remove {α : Type} [DecidableEq α]
    (origin : Finset α) (item rid : α) :
    ((item ∈ origin →
        (ForeignEntities.Unchanged origin).add item =
          ForeignEntities.Unchanged origin) ∧
      (item ∉ origin →
        (ForeignEntities.Unchanged origin).add item =
          ForeignEntities.Changed (.Data origin) {item} ∅)) ∧
    ((rid ∉ origin →
        (ForeignEntities.Unchanged origin).remove rid =
          ForeignEntities.Unchanged origin) ∧
      (rid ∈ origin →
        (ForeignEntities.Unchanged origin).remove rid =
          ForeignEntities.Changed (.Data origin) ∅ {rid})) := by
  refine ⟨⟨fun h => ?_, fun h => ?_⟩, ⟨fun h => ?_, fun h => ?_⟩⟩ <;>
    simp [ForeignEntities.add, ForeignEntities.remove, h]

/-- Witness for C8: concrete instances of all four cases. -/
theorem foreignEntities_unchanged_add_remove_witness :
    ((ForeignEntities.Unchanged ({1} : Finset ℕ)).add 1 =
        ForeignEntities.Unchanged {1}) ∧
    ((ForeignEntities.Unchanged ({1} : Finset ℕ)).add 2 =
        ForeignEntities.Changed (.Data {1}) {2} ∅) ∧
    ((ForeignEntities.Unchanged ({1} : Finset ℕ)).remove 2 =
        ForeignEntities.Unchanged {1}) ∧
    ((ForeignEntities.Unchanged ({1} : Finset ℕ)).remove 1 =
        ForeignEntities.Changed (.Data {1}) ∅ {1}) :=
  ⟨(foreignEntities_unchanged_add_remove {1} 1 1).1.1 (by decide),
    (foreignEntities_unchanged_add_remove {1} 2 1).1.2 (by decide),
    (foreignEntities_unchanged_add_remove {1} 1 2).2.1 (by decide),
    (foreignEntities_unchanged_add_remove {1} 1 1).2.2 (by decide)⟩

/-! Tri-state attribute holder: src/entity/field.rs -/

/-- The error kind raised when an Unloaded field is read. In the Rust
source the read panics with the message Field is not loaded; the panic is
modelled as this error value. -/
inductive FieldError where
  | NotLoaded : FieldError
deriving DecidableEq

/-- The tri-state attribute holder (enum Field in field.rs). -/
inductive Field (α : Type) where
  | Unloaded : Field α
  | Unchanged (v : α) : Field α
  | Set (v : α) : Field α
deriving DecidableEq

namespace Field

variable {α : Type}

/-- Field::value_ref (field.rs lines 52-58): panics on Unloaded (modelled
as the NotLoaded error), otherwise yields the held value. -/
def value_ref : Field α → Except FieldError α
  | .Unloaded => .error .NotLoaded
  | .Unchanged v => .ok v
  | .Set v => .ok v

/-- Field::value (field.rs lines 60-66): consuming read with the same
behavior as value_ref. -/
def value : Field α → Except FieldError α
  | .Unloaded => .error .NotLoaded
  | .Unchanged v => .ok v
  | .Set v => .ok v

/-- The Deref implementation for Field (field.rs lines 30-40): same
behavior as value_ref. -/
def deref : Field α → Except FieldError α
  | .Unloaded => .error .NotLoaded
  | .Unchanged v => .ok v
  | .Set v => .ok v

/-- Field::value_opt (field.rs lines 84-90): absence instead of failure;
both Unchanged and Set yield the held value. -/
def value_opt : Field α → Option α
  | .Unloaded => none
  | .Unchanged v => some v
  | .Set v => some v

/-- Field::changed_ref (field.rs lines 76-82): the value only if the state
is Set, else absence. -/
def changed_ref : Field α → Option α
  | .Unloaded => none
  | .Unchanged _v => none
  | .Set v => some v

/-- Field::set (field.rs lines 93-99): every state moves to Set with the
new value (the Set arm overwrites in place). -/
def set : Field α → α → Field α
  | .Unloaded, value => .Set value
  | .Unchanged _, value => .Set value
  | .Set _, value => .Set value

/-- Whether the field is in the Set state. -/
def is_set : Field α → Bool
  | .Set _ => true
  | _ => false

/-- The changed method of the FiledValue implementation selected by the
MarkCopy marker (field.rs lines 228-239, requiring T to be Copy): it
delegates to value_opt, not to changed_ref. -/
def changed_copy (f : Field α) : Option α :=
  f.value_opt

/-- The filled method of the same MarkCopy implementation: it delegates to
value_ref (the panic is modelled as the NotLoaded error). -/
def filled_copy (f : Field α) : Except FieldError α :=
  f.value_ref

end Field

/-- Claim C9: a Field in state Unloaded (never written) fails every read
(value, value_ref and deref) with the NotLoaded error; after set with value
v, from any state, a read succeeds and returns exactly v, and the state is
Set. -/
theorem field_unloaded_read_fails_set_read_succeeds {α : Type}
    (f : Field α) (v : α) :
    ((Field.Unloaded : Field α).value = .error .NotLoaded ∧
      (Field.Unloaded : Field α).value_ref = .error .NotLoaded ∧
      (Field.Unloaded : Field α).deref = .error .NotLoaded) ∧
    ((f.set v).value = .ok v ∧ (f.set v).value_ref = .ok v ∧
      (f.set v).is_set = true) := by
  refine ⟨⟨rfl, rfl, rfl⟩, ?_⟩
  cases f <;> exact ⟨rfl, rfl, rfl⟩

/-- Claim C10: on an Unchanged field, the changed method of the MarkCopy
specialization of FiledValue returns the held value (it delegates to
value_opt), diverging from changed_ref, which returns none for Unchanged. -/
theorem field_markCopy_changed_diverges {α : Type} (v : α) :
    (Field.Unchanged v).changed_copy = some v ∧
      (Field.Unchanged v).changed_ref = none :=
  ⟨rfl, rfl⟩

/-! Transaction coordinator: src/db/diesel/mod.rs and
src/db/transaction.rs -/

/-- TxnState (src/db/mod.rs): lifecycle state of the coordinator. -/
inductive TxnState where
  | NotInTransaction : TxnState
  | Begun : TxnState
  | Committed : TxnState
  | RolledBack : TxnState
deriving DecidableEq

/-- TxResult (transaction.rs lines 30-34): the outcome delivered to
registered callbacks. -/
inductive TxResult where
  | Committed : TxResult
  | RolledBack : TxResult
deriving DecidableEq

/-- A BizResult (Rust Result of Result): ok-ok is business success, ok-error
is a business failure, error is a system error. -/
abbrev BizResult (σ ε τ : Type) := Except σ (Except ε τ)

/-- The DbAdapter driver calls made by do_transaction, modelled by their
results for the one transaction under consideration: none means the driver
call succeeds, some e means it fails with system error e. -/
structure DbAdapter (σ : Type) where
  begin_txn : Option σ
  commit_txn : Option σ
  rollback_txn : Option σ
deriving DecidableEq

/-- The shared state of TxnManagerDiesel (mod.rs lines 117-122): the
transaction state and the registered callback list, with callbacks
represented by values of an abstract type. -/
structure TxnManagerDiesel (κ : Type) where
  state : TxnState
  callbacks : List κ
deriving DecidableEq

namespace TxnManagerDiesel

variable {σ ε τ κ : Type}

/-- TxnManagerDiesel::new (mod.rs lines 143-149): state NotInTransaction,
no callbacks. -/
def new (κ : Type) : TxnManagerDiesel κ :=
  ⟨TxnState.NotInTransaction, []⟩

/-- TxnManagerDiesel::register_callback (mod.rs lines 226-232): appends to
the callback list. -/
def register_callback (m : TxnManagerDiesel κ) (c : κ) : TxnManagerDiesel κ :=
  { m with callbacks := m.callbacks ++ [c] }

/-- TxnManagerDiesel::invoke_callbacks (mod.rs lines 155-178). Takes the
whole callback list out (leaving it empty); if it was empty, returns at
once. Otherwise maps the transaction state to an outcome — Committed to
Committed, RolledBack and Begun to RolledBack, while NotInTransaction only
logs a warning and invokes nothing (the taken callbacks are discarded) —
and calls every callback with that outcome, in registration order. The
returned list is the sequence of (callback, outcome) invocations
performed. -/
def invoke_callbacks (m : TxnManagerDiesel κ) :
    TxnManagerDiesel κ × List (κ × TxResult) :=
  let cbs := m.callbacks
  let m2 : TxnManagerDiesel κ := { m with callbacks := [] }
  if cbs.isEmpty then (m2, [])
  else
    match m.state with
    | TxnState.NotInTransaction => (m2, [])
    | TxnState.Committed => (m2, cbs.map (fun c => (c, TxResult.Committed)))
    | TxnState.RolledBack => (m2, cbs.map (fun c => (c, TxResult.RolledBack)))
    | TxnState.Begun => (m2, cbs.map (fun c => (c, TxResult.RolledBack)))

/-- TxnManagerDiesel::do_transaction (mod.rs lines 190-224), with the
await of the wrapped business future replaced by its final value tx and
the driver calls replaced by their recorded results. Every Rust question
mark is an early return that skips both set_state and the trailing
invoke_callbacks call. Returns the BizResult, the manager state after the
call, and the callback invocations performed during the call. -/
def do_transaction (a : DbAdapter σ) (m : TxnManagerDiesel κ)
    (tx : BizResult σ ε τ) :
    BizResult σ ε τ × TxnManagerDiesel κ × List (κ × TxResult) :=
  match a.begin_txn with
  | some e => (Except.error e, m, [])
  | none =>
    let m1 : TxnManagerDiesel κ := { m with state := TxnState.Begun }
    match tx with
    | Except.ok (Except.ok v) =>
      match a.commit_txn with
      | some e => (Except.error e, m1, [])
      | none =>
        let m2 : TxnManagerDiesel κ := { m1 with state := TxnState.Committed }
        let (m3, evs) := invoke_callbacks m2
        (Except.ok (Except.ok v), m3, evs)
    | Except.ok (Except.error ue) =>
      match a.rollback_txn with
      | some e => (Except.error e, m1, [])
      | none =>
        let m2 : TxnManagerDiesel κ := { m1 with state := TxnState.RolledBack }
        let (m3, evs) := invoke_callbacks m2
        (Except.ok (Except.error ue), m3, evs)
    | Except.error se =>
      match a.rollback_txn with
      | some e => (Except.error e, m1, [])
      | none =>
        let m2 : TxnManagerDiesel κ := { m1 with state := TxnState.RolledBack }
        let (m3, evs) := invoke_callbacks m2
        (Except.error se, m3, evs)

/-- The full lifecycle of one logical transaction: the do_transaction call
followed by the drop of the last manager handle, whose Drop implementation
(mod.rs lines 239-245) runs invoke_callbacks once the strong count reaches
one. Returns the BizResult, the final manager state, and the concatenated
callback invocations of both phases. -/
def lifecycle (a : DbAdapter σ) (m : TxnManagerDiesel κ)
    (tx : BizResult σ ε τ) :
    BizResult σ ε τ × TxnManagerDiesel κ × List (κ × TxResult) :=
  let (res, m1, evs1) := do_transaction a m tx
  let (m2, evs2) := invoke_callbacks m1
  (res, m2, evs1 ++ evs2)

end TxnManagerDiesel

/-- BasicTxCallback (transaction.rs lines 36-67): the shared task cell of
the post-commit scheduler. none models the lazily created Rust
Option of Vec being absent. -/
structure BasicTxCallback (γ : Type) where
  tasks : Option (List γ)
deriving DecidableEq

namespace BasicTxCallback

variable {γ : Type}

/-- BasicTxCallback::push_task (transaction.rs lines 62-66): creates the
pending list if absent and appends the task. -/
def push_task (cb : BasicTxCallback γ) (t : γ) : BasicTxCallback γ :=
  { tasks := some (cb.tasks.getD [] ++ [t]) }

/-- BasicTxCallback::call (transaction.rs lines 88-103): on Committed,
takes the pending list (leaving the shared cell empty) and hands every
task to the task runner in order; on RolledBack, only logs, leaving the
cell as is and spawning nothing. Returns the cell after the call and the
list of tasks handed to the runner, in submission order. -/
def call (cb : BasicTxCallback γ) (r : TxResult) :
    BasicTxCallback γ × List γ :=
  match r with
  | TxResult.Committed => (⟨none⟩, cb.tasks.getD [])
  | TxResult.RolledBack => (cb, [])

/-- Process a sequence of callback invocations against the shared task
cell, accumulating every task handed to the runner. -/
def process_results (cb : BasicTxCallback γ) :
    List TxResult → BasicTxCallback γ × List γ
  | [] => (cb, [])
  | r :: rs =>
    let (cb1, s1) := cb.call r
    let (cb2, s2) := process_results cb1 rs
    (cb2, s1 ++ s2)

end BasicTxCallback

/-- One logical transaction whose single registered callback is a
BasicTxCallback holding the shared task cell cb: the lifecycle of the
manager (do_transaction plus final drop), with every invocation of the
callback applied to the cell. Returns the BizResult, the final transaction
state, the task cell after all invocations, and the tasks handed to the
task runner, in order. -/
def run_with_tasks {σ ε τ γ : Type} (a : DbAdapter σ) (tx : BizResult σ ε τ)
    (cb : BasicTxCallback γ) :
    BizResult σ ε τ × TxnState × BasicTxCallback γ × List γ :=
  let m0 := TxnManagerDiesel.register_callback (TxnManagerDiesel.new Unit) ()
  let (res, m2, evs) := TxnManagerDiesel.lifecycle a m0 tx
  let (cb2, spawned) := BasicTxCallback.process_results cb (evs.map Prod.snd)
  (res, m2.state, cb2, spawned)

namespace TxnManagerDiesel

theorem invoke_callbacks_committed {κ : Type} (cbs : List κ) :
    invoke_callbacks ⟨TxnState.Committed, cbs⟩ =
      (⟨TxnState.Committed, []⟩, cbs.map (fun c => (c, TxResult.Committed))) := by
  cases cbs <;> simp [invoke_callbacks]

theorem invoke_callbacks_rolledBack {κ : Type} (cbs : List κ) :
    invoke_callbacks ⟨TxnState.RolledBack, cbs⟩ =
      (⟨TxnState.RolledBack, []⟩, cbs.map (fun c => (c, TxResult.RolledBack))) := by
  cases cbs <;> simp [invoke_callbacks]

theorem invoke_callbacks_begun {κ : Type} (cbs : List κ) :
    invoke_callbacks ⟨TxnState.Begun, cbs⟩ =
      (⟨TxnState.Begun, []⟩, cbs.map (fun c => (c, TxResult.RolledBack))) := by
  cases cbs <;> simp [invoke_callbacks]

theorem invoke_callbacks_empty {κ : Type} (st : TxnState) :
    invoke_callbacks (⟨st, []⟩ : TxnManagerDiesel κ) = (⟨st, []⟩, []) := by
  simp [invoke_callbacks]

theorem foldl_register_callback {κ : Type} (m : TxnManagerDiesel κ)
    (cbs : List κ) :
    List.foldl register_callback m cbs = ⟨m.state, m.callbacks ++ cbs⟩ := by
  induction cbs generalizing m with
  | nil => simp
  | cons c rest ih =>
    rw [List.foldl_cons, ih]
    simp [register_callback]

end TxnManagerDiesel

namespace BasicTxCallback

theorem foldl_push_task {γ : Type} (cb : BasicTxCallback γ) (ts : List γ) :
    (List.foldl push_task cb ts).tasks.getD [] = cb.tasks.getD [] ++ ts := by
  induction ts generalizing cb with
  | nil => simp
  | cons t rest ih =>
    rw [List.foldl_cons, ih]
    simp [push_task]

end BasicTxCallback

/-- Counterexample for claim C1 as stated: when the begin-transaction
driver call fails, do_transaction returns early with the begin error,
the state stays NotInTransaction, and at the final drop invoke_callbacks
discards the registered callback without invoking it — so a callback
registered before the do_transaction call is invoked zero times instead of
exactly once, and neither terminal outcome is delivered. -/
theorem do_transaction_begin_failure_counterexample :
    (TxnManagerDiesel.register_callback (TxnManagerDiesel.new Nat) 7).callbacks
        = [7] ∧
    (TxnManagerDiesel.lifecycle (σ := Nat) (ε := Nat) (τ := Nat)
        ⟨some 0, none, none⟩
        (TxnManagerDiesel.register_callback (TxnManagerDiesel.new Nat) 7)
        (Except.ok (Except.ok 0))).2.2 = [] ∧
    (TxnManagerDiesel.lifecycle (σ := Nat) (ε := Nat) (τ := Nat)
        ⟨some 0, none, none⟩
        (TxnManagerDiesel.register_callback (TxnManagerDiesel.new Nat) 7)
        (Except.ok (Except.ok 0))).2.2 ≠ [(7, TxResult.Committed)] ∧
    (TxnManagerDiesel.lifecycle (σ := Nat) (ε := Nat) (τ := Nat)
        ⟨some 0, none, none⟩
        (TxnManagerDiesel.register_callback (TxnManagerDiesel.new Nat) 7)
        (Except.ok (Except.ok 0))).2.2 ≠ [(7, TxResult.RolledBack)] := by
  refine ⟨rfl, rfl, ?_, ?_⟩ <;> decide

/-- Claim C1 (amended: provided the begin driver call succeeds): for every
wrapped business future outcome and every list of callbacks registered
before do_transaction is called, over the whole lifecycle (the
do_transaction call plus the drop of the last handle) there is exactly one
outcome r in the set containing Committed and RolledBack such that every
registered callback is invoked exactly once with r, in registration order
— the drop of an unresolved manager counting as an implicit rollback —
and after the lifecycle a further invoke_callbacks drains an empty list
and invokes nothing. -/
theorem do_transaction_callbacks_exactly_once {σ ε τ κ : Type}
    (a : DbAdapter σ) (tx : BizResult σ ε τ) (cbs : List κ)
    (hb : a.begin_txn = none) :
    ∃ r : TxResult,
      (TxnManagerDiesel.lifecycle a
          (List.foldl TxnManagerDiesel.register_callback
            (TxnManagerDiesel.new κ) cbs) tx).2.2 =
        cbs.map (fun c => (c, r)) ∧
      (TxnManagerDiesel.invoke_callbacks
          (TxnManagerDiesel.lifecycle a
            (List.foldl TxnManagerDiesel.register_callback
              (TxnManagerDiesel.new κ) cbs) tx).2.1).2 = [] := by
  obtain ⟨ab, ac, ar⟩ := a
  simp only at hb
  subst hb
  rw [TxnManagerDiesel.foldl_register_callback]
  cases tx with
  | ok inner =>
    cases inner with
    | ok v =>
      cases ac with
      | none =>
        refine ⟨TxResult.Committed, ?_, ?_⟩ <;>
          simp [TxnManagerDiesel.lifecycle, TxnManagerDiesel.do_transaction,
            TxnManagerDiesel.invoke_callbacks_committed,
            TxnManagerDiesel.invoke_callbacks_empty, TxnManagerDiesel.new]
      | some ce =>
        refine ⟨TxResult.RolledBack, ?_, ?_⟩ <;>
          simp [TxnManagerDiesel.lifecycle, TxnManagerDiesel.do_transaction,
            TxnManagerDiesel.invoke_callbacks_begun,
            TxnManagerDiesel.invoke_callbacks_empty, TxnManagerDiesel.new]
    | error ue =>
      cases ar with
      | none =>
        refine ⟨TxResult.RolledBack, ?_, ?_⟩ <;>
          simp [TxnManagerDiesel.lifecycle, TxnManagerDiesel.do_transaction,
            TxnManagerDiesel.invoke_callbacks_rolledBack,
            TxnManagerDiesel.invoke_callbacks_empty, TxnManagerDiesel.new]
      | some re =>
        refine ⟨TxResult.RolledBack, ?_, ?_⟩ <;>
          simp [TxnManagerDiesel.lifecycle, TxnManagerDiesel.do_transaction,
            TxnManagerDiesel.invoke_callbacks_begun,
            TxnManagerDiesel.invoke_callbacks_empty, TxnManagerDiesel.new]
  | error se =>
    cases ar with
    | none =>
      refine ⟨TxResult.RolledBack, ?_, ?_⟩ <;>
        simp [TxnManagerDiesel.lifecycle, TxnManagerDiesel.do_transaction,
          TxnManagerDiesel.invoke_callbacks_rolledBack,
          TxnManagerDiesel.invoke_callbacks_empty, TxnManagerDiesel.new]
    | some re =>
      refine ⟨TxResult.RolledBack, ?_, ?_⟩ <;>
        simp [TxnManagerDiesel.lifecycle, TxnManagerDiesel.do_transaction,
          TxnManagerDiesel.invoke_callbacks_begun,
          TxnManagerDiesel.invoke_callbacks_empty, TxnManagerDiesel.new]

/-- Witness for amended C1: two callbacks, a successful business future and
a successful commit. -/
theorem do_transaction_callbacks_exactly_once_witness :
    (⟨none, none, none⟩ : DbAdapter Nat).begin_txn = none ∧
    ∃ r : TxResult,
      (TxnManagerDiesel.lifecycle (ε := Nat) (τ := Nat)
          (⟨none, none, none⟩ : DbAdapter Nat)
          (List.foldl TxnManagerDiesel.register_callback
            (TxnManagerDiesel.new Nat) [1, 2]) (Except.ok (Except.ok 5))).2.2 =
        [1, 2].map (fun c => (c, r)) ∧
      (TxnManagerDiesel.invoke_callbacks
          (TxnManagerDiesel.lifecycle (ε := Nat) (τ := Nat)
            (⟨none, none, none⟩ : DbAdapter Nat)
            (List.foldl TxnManagerDiesel.register_callback
              (TxnManagerDiesel.new Nat) [1, 2])
            (Except.ok (Except.ok 5))).2.1).2 = [] :=
  ⟨rfl, do_transaction_callbacks_exactly_once ⟨none, none, none⟩
    (Except.ok (Except.ok 5)) [1, 2] rfl⟩

/-- Claim C2: when the business future yields a business-level failure, the
transaction is rolled back; if the rollback driver call succeeds, the run
returns the original business error, the state is RolledBack and no pushed
task is handed to the executor; if the rollback driver call itself fails,
that failure is surfaced as the system error instead, and still no pushed
task is handed to the executor. -/
theorem do_transaction_biz_error_rolls_back {σ ε τ γ : Type}
    (a : DbAdapter σ) (ue : ε) (cb : BasicTxCallback γ)
    (hb : a.begin_txn = none) :
    (a.rollback_txn = none →
      run_with_tasks (τ := τ) a (Except.ok (Except.error ue)) cb =
        (Except.ok (Except.error ue), TxnState.RolledBack, cb, [])) ∧
    (∀ re, a.rollback_txn = some re →
      (run_with_tasks (τ := τ) a (Except.ok (Except.error ue)) cb).1 =
          Except.error re ∧
        (run_with_tasks (τ := τ) a (Except.ok (Except.error ue)) cb).2.2.2 =
          []) := by
  obtain ⟨ab, ac, ar⟩ := a
  simp only at hb
  subst hb
  constructor
  · intro hr
    simp only at hr
    subst hr
    simp [run_with_tasks, TxnManagerDiesel.lifecycle,
      TxnManagerDiesel.do_transaction, TxnManagerDiesel.invoke_callbacks,
      TxnManagerDiesel.new, TxnManagerDiesel.register_callback,
      BasicTxCallback.process_results, BasicTxCallback.call]
  · intro re hr
    simp only at hr
    subst hr
    constructor <;>
      simp [run_with_tasks, TxnManagerDiesel.lifecycle,
        TxnManagerDiesel.do_transaction, TxnManagerDiesel.invoke_callbacks,
        TxnManagerDiesel.new, TxnManagerDiesel.register_callback,
        BasicTxCallback.process_results, BasicTxCallback.call]

/-- Witness for C2: both branches at concrete inputs — a successful
rollback returns the business error with state RolledBack and no spawned
task, and a failing rollback surfaces the rollback error. -/
theorem do_transaction_biz_error_rolls_back_witness :
    (run_with_tasks (σ := Nat) (τ := Nat) (⟨none, none, none⟩ : DbAdapter Nat)
        (Except.ok (Except.error 5)) (⟨some [10]⟩ : BasicTxCallback Nat) =
      (Except.ok (Except.error 5), TxnState.RolledBack, ⟨some [10]⟩, [])) ∧
    ((run_with_tasks (σ := Nat) (τ := Nat)
        (⟨none, none, some 99⟩ : DbAdapter Nat)
        (Except.ok (Except.error 5)) (⟨some [10]⟩ : BasicTxCallback Nat)).1 =
      Except.error 99) :=
  ⟨(do_transaction_biz_error_rolls_back ⟨none, none, none⟩ 5 ⟨some [10]⟩
      rfl).1 rfl,
    ((do_transaction_biz_error_rolls_back ⟨none, none, some 99⟩ 5 ⟨some [10]⟩
      rfl).2 99 rfl).1⟩

/-- Claim C3: when the business future yields a business-level success but
the commit driver call fails, do_transaction returns the commit failure as
a system error and never returns the business success. -/
theorem do_transaction_commit_failure_system_error {σ ε τ κ : Type}
    (a : DbAdapter σ) (m : TxnManagerDiesel κ) (v : τ) (ce : σ)
    (hb : a.begin_txn = none) (hc : a.commit_txn = some ce) :
    (TxnManagerDiesel.do_transaction (ε := ε) a m
        (Except.ok (Except.ok v))).1 = Except.error ce ∧
      ∀ w : Except ε τ,
        (TxnManagerDiesel.do_transaction a m
          (Except.ok (Except.ok v))).1 ≠ Except.ok w := by
  obtain ⟨ab, ac, ar⟩ := a
  simp only at hb hc
  subst hb
  subst hc
  exact ⟨rfl, fun w h => Except.noConfusion h⟩

/-- Witness for C3: a failing commit after business success 42 surfaces the
commit error and does not return the success. -/
theorem do_transaction_commit_failure_system_error_witness :
    (TxnManagerDiesel.do_transaction (ε := Nat)
        (⟨none, some 77, none⟩ : DbAdapter Nat) (TxnManagerDiesel.new Nat)
        (Except.ok (Except.ok 42))).1 = Except.error 77 ∧
      ∀ w : Except Nat Nat,
        (TxnManagerDiesel.do_transaction (⟨none, some 77, none⟩ : DbAdapter Nat)
          (TxnManagerDiesel.new Nat) (Except.ok (Except.ok 42))).1 ≠
            Except.ok w :=
  do_transaction_commit_failure_system_error ⟨none, some 77, none⟩
    (TxnManagerDiesel.new Nat) 42 77 rfl rfl

/-- Claim C4: when the business future yields a business-level success and
the commit driver call succeeds, the run returns the business success, the
state is Committed, every task pushed through push_task before resolution
is handed to the task runner exactly once and in push order, and the
pending task list is cleared. -/
theorem do_transaction_commit_success {σ ε τ γ : Type}
    (a : DbAdapter σ) (v : τ) (ts : List γ)
    (hb : a.begin_txn = none) (hc : a.commit_txn = none) :
    run_with_tasks (ε := ε) a (Except.ok (Except.ok v))
        (List.foldl BasicTxCallback.push_task ⟨none⟩ ts) =
      (Except.ok (Except.ok v), TxnState.Committed, ⟨none⟩, ts) := by
  obtain ⟨ab, ac, ar⟩ := a
  simp only at hb hc
  subst hb
  subst hc
  simp [run_with_tasks, TxnManagerDiesel.lifecycle,
    TxnManagerDiesel.do_transaction, TxnManagerDiesel.invoke_callbacks,
    TxnManagerDiesel.new, TxnManagerDiesel.register_callback,
    BasicTxCallback.process_results, BasicTxCallback.call,
    BasicTxCallback.foldl_push_task]

/-- Witness for C4: pushing tasks 10 and 20 and committing spawns exactly
[10, 20] and clears the pending list. -/
theorem do_transaction_commit_success_witness :
    run_with_tasks (σ := Nat) (ε := Nat) (⟨none, none, none⟩ : DbAdapter Nat)
        (Except.ok (Except.ok 42))
        (List.foldl BasicTxCallback.push_task ⟨none⟩ [10, 20]) =
      (Except.ok (Except.ok 42), TxnState.Committed, ⟨none⟩, [10, 20]) :=
  do_transaction_commit_success ⟨none, none, none⟩ 42 [10, 20] rfl rfl

end Bagua
